import Mathlib

/-!
Shallow embedding of the CSRD report-analysis core of the repository
(`app.py`, `src/report_analyzer.py`, `src/config.py`).

Numbers: Python floats are modelled as exact rationals (`ℚ`); `round(x, 2)`
is modelled as round-half-to-even at two decimal places.  Strings are Lean
`String`s; Python slicing `s[:n]` slices the code-point list.  Python `dict`s
with a fixed key set are structures; `dict`s used as ordered containers are
association lists in insertion order.  Exceptions are `Except`; an attribute
access on a never-assigned instance attribute is an `AttributeError`.
-/

namespace IsItBullshit

/-- Python exception kinds relevant to the embedded code paths. -/
inductive PyError
  | attributeError
  | keyError
  | valueError
  deriving DecidableEq, Repr

/-- Round-half-to-even of a rational to an integer, the tie-breaking rule of
Python 3 `round` (modelled on exact rationals). -/
def roundHalfEven (q : ℚ) : ℤ :=
  let f := ⌊q⌋
  if q - f < 1 / 2 then f
  else if q - f > 1 / 2 then f + 1
  else if f % 2 = 0 then f else f + 1

/-- Python `round(q, 2)`: round to two decimal places, ties to even. -/
def round2 (q : ℚ) : ℚ := (roundHalfEven (q * 100) : ℚ) / 100

/-- Python `s[:n]` on a string: the first `n` code points. -/
def pySlice (s : String) (n : Nat) : String := ⟨s.data.take n⟩

/-- Python `s.startswith(p)`. -/
def pyStartswith (s p : String) : Bool := p.data.isPrefixOf s.data

/-- `get_company_context` output: `{name, sector, size}`. -/
structure CompanyInfo where
  name : String
  sector : String
  size : String
  deriving DecidableEq, Repr

/-- The three compliance lists of a section result
(`compliance.conforming / non_conforming / partially_conforming`). -/
structure ComplianceLists where
  conforming : List String
  non_conforming : List String
  partially_conforming : List String
  deriving DecidableEq, Repr

/-- One per-section analysis payload as consumed by `_consolidate_results`:
the keys it reads from the JSON object returned by the completion service.
`score` and `recommendations` are optional because the code reads them with
`results.get(..., default)`; `compliance` is optional because the code guards
with `if "compliance" in results`. -/
structure SectionResult where
  score : Option ℚ
  evaluation : String
  compliance : Option ComplianceLists
  recommendations : Option (List String)
  deriving DecidableEq, Repr

/-- The fixed `weights` dict of `_consolidate_results`, read with
`weights.get(section, 0)`. -/
def weightOf (sec : String) : ℚ :=
  if sec = "environmental" then 2 / 5
  else if sec = "social" then 3 / 10
  else if sec = "governance" then 3 / 10
  else 0

/-- One entry of `consolidated["section_scores"]`. -/
structure ScoreEntry where
  score : ℚ
  weighted_score : ℚ
  weight : ℚ
  deriving DecidableEq, Repr

/-- The running state of the `for section, results in section_results.items()`
loop of `_consolidate_results`: accumulated total score, section-score
entries, recommendations and compliance summary, in iteration order. -/
structure ConsState where
  total : ℚ
  section_scores : List (String × ScoreEntry)
  recommendations : List String
  compliance_summary : ComplianceLists
  deriving DecidableEq, Repr

/-- The loop body of `_consolidate_results`, processing the section results
in iteration (insertion) order; the head of the list is processed first, so
its contributions precede those of the tail in every accumulated list. -/
def consolidateCore : List (String × SectionResult) → ConsState
  | [] => ⟨0, [], [], ⟨[], [], []⟩⟩
  | (sec, r) :: rest =>
    let st := consolidateCore rest
    let score := r.score.getD 0
    let w := weightOf sec
    ⟨score * w + st.total,
     (sec, ⟨score, score * w, w⟩) :: st.section_scores,
     r.recommendations.getD [] ++ st.recommendations,
     match r.compliance with
     | none => st.compliance_summary
     | some c =>
       ⟨c.conforming ++ st.compliance_summary.conforming,
        c.non_conforming ++ st.compliance_summary.non_conforming,
        c.partially_conforming ++ st.compliance_summary.partially_conforming⟩⟩

/-- The consolidated record built by `_consolidate_results`. -/
structure ConsolidatedAnalysis where
  global_score : ℚ
  section_scores : List (String × ScoreEntry)
  detailed_analysis : List (String × SectionResult)
  compliance_summary : ComplianceLists
  key_findings : List String
  recommendations : List String
  deriving DecidableEq, Repr

/-- `CSRDReportAnalyzer._consolidate_results` (src/report_analyzer.py):
weighted total, per-section score entries, aggregated recommendation and
compliance lists, and `global_score = round(total_score, 2)`. -/
def consolidateResults (section_results : List (String × SectionResult)) :
    ConsolidatedAnalysis :=
  let st := consolidateCore section_results
  ⟨round2 st.total, st.section_scores, section_results,
   st.compliance_summary, [], st.recommendations⟩

/-- A section result that carries only a score (all other payload trivial). -/
def mkScored (q : ℚ) : SectionResult := ⟨some q, "", none, none⟩

/-- The `metadata` dict attached by `_enrich_results`. -/
structure AnalysisMetadata where
  company_info : CompanyInfo
  analysis_date : String
  esrs_version : String
  analyzer_version : String
  deriving DecidableEq, Repr

/-- The `statistics` dict attached by `_enrich_results`. -/
structure AnalysisStatistics where
  total_conforming : Nat
  total_non_conforming : Nat
  total_partial : Nat
  total_recommendations : Nat
  deriving DecidableEq, Repr

/-- The result record after `_enrich_results`: the consolidated fields plus
`metadata`, `statistics` and `executive_summary`. -/
structure EnrichedAnalysis where
  base : ConsolidatedAnalysis
  metadata : AnalysisMetadata
  statistics : AnalysisStatistics
  executive_summary : String
  deriving DecidableEq, Repr

/-- `CSRDReportAnalyzer._generate_summary`: reads the scores of the three
fixed sections from `results["section_scores"]`; a missing section key is a
Python `KeyError`. -/
def generateSummary (c : ConsolidatedAnalysis) : Except PyError String :=
  match c.section_scores.lookup "environmental", c.section_scores.lookup "social",
      c.section_scores.lookup "governance" with
  | some e, some s, some g =>
    .ok ("Analyse ESRS - Score global: " ++ toString c.global_score
      ++ "/100\n\nPerformance par section:\n- Environnement: " ++ toString e.score
      ++ "/100\n- Social: " ++ toString s.score
      ++ "/100\n- Gouvernance: " ++ toString g.score
      ++ "/100\n\nPoints d\x27attention:\n- "
      ++ toString c.compliance_summary.non_conforming.length
      ++ " non-conformités identifiées\n- "
      ++ toString c.compliance_summary.partially_conforming.length
      ++ " conformités partielles\n- "
      ++ toString c.recommendations.length
      ++ " recommandations d\x27amélioration")
  | _, _, _ => .error .keyError

/-- `CSRDReportAnalyzer._enrich_results` (src/report_analyzer.py): attach
`metadata` (with the fixed version strings `"2024"` and `"2.0"` and the
current timestamp `now`), `statistics`, and the executive summary. -/
def enrichResults (c : ConsolidatedAnalysis) (company : CompanyInfo)
    (now : String) : Except PyError EnrichedAnalysis :=
  match generateSummary c with
  | .error e => .error e
  | .ok summary =>
    .ok ⟨c, ⟨company, now, "2024", "2.0"⟩,
      ⟨c.compliance_summary.conforming.length,
       c.compliance_summary.non_conforming.length,
       c.compliance_summary.partially_conforming.length,
       c.recommendations.length⟩,
      summary⟩

/-! ### Helper lemmas about the rounding model -/

lemma roundHalfEven_low (q : ℚ) (f : ℤ) (hf : ⌊q⌋ = f) (h : q - f < 1 / 2) :
    roundHalfEven q = f := by
  unfold roundHalfEven
  rw [hf, if_pos h]

lemma roundHalfEven_tie_even (q : ℚ) (f : ℤ) (hq : q = f + 1 / 2)
    (he : f % 2 = 0) : roundHalfEven q = f := by
  have hf : ⌊q⌋ = f := by
    rw [Int.floor_eq_iff, hq]
    constructor <;> norm_num
  unfold roundHalfEven
  rw [hf, if_neg (by rw [hq]; norm_num), if_neg (by rw [hq]; norm_num), if_pos he]

lemma round2_int (q : ℚ) (n : ℤ) (h : q * 100 = n) : round2 q = q := by
  have hf : ⌊q * 100⌋ = n := by rw [h, Int.floor_intCast]
  unfold round2
  rw [roundHalfEven_low (q * 100) n hf (by rw [h]; norm_num), ← h]
  ring

lemma round2_lowc (q : ℚ) (f : ℤ) (hf : ⌊q * 100⌋ = f) (h : q * 100 - f < 1 / 2) :
    round2 q = f / 100 := by
  unfold round2
  rw [roundHalfEven_low (q * 100) f hf h]

lemma round2_tie_even (q : ℚ) (f : ℤ) (hq : q * 100 = f + 1 / 2) (he : f % 2 = 0) :
    round2 q = f / 100 := by
  unfold round2
  rw [roundHalfEven_tie_even (q * 100) f hq he]

lemma roundHalfEven_ge_floor (q : ℚ) : ⌊q⌋ ≤ roundHalfEven q := by
  unfold roundHalfEven
  dsimp only
  split
  · exact le_rfl
  · split
    · exact Int.le.intro 1 rfl
    · split
      · exact le_rfl
      · exact Int.le.intro 1 rfl

lemma roundHalfEven_le_ceil (q : ℚ) : roundHalfEven q ≤ ⌈q⌉ := by
  have hfc : ⌊q⌋ ≤ ⌈q⌉ := Int.floor_le_ceil q
  have hlt : ∀ h : ¬q - ⌊q⌋ < 1 / 2, ⌊q⌋ + 1 ≤ ⌈q⌉ := by
    intro h
    have : (⌊q⌋ : ℚ) < q := by
      have := not_lt.mp h
      linarith
    exact Int.lt_iff_add_one_le.mp (Int.lt_ceil.mpr this)
  unfold roundHalfEven
  dsimp only
  split
  · exact hfc
  · next h =>
    split
    · exact hlt h
    · split
      · exact hfc
      · exact hlt h

lemma round2_nonneg (q : ℚ) (h : 0 ≤ q) : 0 ≤ round2 q := by
  unfold round2
  have h0 : (0 : ℤ) ≤ ⌊q * 100⌋ := Int.le_floor.mpr (by push_cast; positivity)
  have := le_trans h0 (roundHalfEven_ge_floor (q * 100))
  positivity

lemma round2_le_100 (q : ℚ) (h : q ≤ 100) : round2 q ≤ 100 := by
  unfold round2
  have hc : ⌈q * 100⌉ ≤ (10000 : ℤ) := Int.ceil_le.mpr (by push_cast; nlinarith)
  have h1 : roundHalfEven (q * 100) ≤ 10000 :=
    le_trans (roundHalfEven_le_ceil (q * 100)) hc
  have h2 : (roundHalfEven (q * 100) : ℚ) ≤ 10000 := by exact_mod_cast h1
  linarith

/-! ### Regulatory corpus loader (`load_csrd_documents`) -/

/-- The six categories of the `csrd_data` dict literal. -/
inductive Category
  | environmental
  | social
  | governance
  | cross_cutting
  | annexes
  | precisions
  deriving DecidableEq, Repr

/-- The `csrd_data` corpus: each category maps document name to content,
in insertion order. -/
structure CsrdData where
  environmental : List (String × String)
  social : List (String × String)
  governance : List (String × String)
  cross_cutting : List (String × String)
  annexes : List (String × String)
  precisions : List (String × String)
  deriving DecidableEq, Repr

/-- The corpus dict as initialised before the directory scan: all six
categories present and empty. -/
def emptyCsrd : CsrdData := ⟨[], [], [], [], [], []⟩

/-- One `*.txt` file of `data/csrd/general`: its base name (`file_path.stem`),
its content, and whether opening/reading it raises. -/
structure FileEntry where
  stem : String
  content : String
  readError : Bool
  deriving DecidableEq, Repr

/-- The tail of the categorisation `if/elif` chain of `load_csrd_documents`
(the branches after the `ESRS*` tests): `ANNEXE*` files, the two reserved
clarification names, and otherwise the silent drop. -/
def categorizeTail (name : String) : Option Category :=
  if pyStartswith name "ANNEXE" then some .annexes
  else if name = "Questions_réponses" ∨ name = "precisions_esrs" then some .precisions
  else none

/-- The full categorisation chain of `load_csrd_documents`.  The branch
`elif name.startswith("ESRS") and name[4].isdigit()` indexes `name[4]`,
which is a Python `IndexError` when the name has four characters; the
`Except.error` case models that exception. -/
def categorize (name : String) : Except Unit (Option Category) :=
  if pyStartswith name "ESRS_E" then .ok (some .environmental)
  else if pyStartswith name "ESRS_S" then .ok (some .social)
  else if pyStartswith name "ESRS_G" then .ok (some .governance)
  else if pyStartswith name "ESRS" then
    match name.data.get? 4 with
    | none => .error ()
    | some c => if c.isDigit then .ok (some .cross_cutting) else .ok (categorizeTail name)
  else .ok (categorizeTail name)

/-- The per-file `try` body of the loader loop: a read error or a
categorisation exception is caught by the per-file handler, which logs the
error message and moves on; `.ok none` is the silent drop. -/
def processFile (e : FileEntry) : Except String (Option (Category × String × String)) :=
  if e.readError then .error ("Erreur lors de la lecture de " ++ e.stem)
  else
    match categorize e.stem with
    | .error _ => .error ("Erreur lors de la lecture de " ++ e.stem)
    | .ok none => .ok none
    | .ok (some cat) => .ok (some (cat, e.stem, e.content))

/-- Insert a document at the front of its category bucket. -/
def insertDoc (cat : Category) (name content : String) (d : CsrdData) : CsrdData :=
  match cat with
  | .environmental => { d with environmental := (name, content) :: d.environmental }
  | .social => { d with social := (name, content) :: d.social }
  | .governance => { d with governance := (name, content) :: d.governance }
  | .cross_cutting => { d with cross_cutting := (name, content) :: d.cross_cutting }
  | .annexes => { d with annexes := (name, content) :: d.annexes }
  | .precisions => { d with precisions := (name, content) :: d.precisions }

/-- The file loop of `load_csrd_documents`: files are processed left to
right, so the contributions of the head precede those of the tail in each
bucket and in the error log. -/
def processFiles : List FileEntry → CsrdData × List String
  | [] => (emptyCsrd, [])
  | e :: rest =>
    match processFile e with
    | .error msg => ((processFiles rest).1, msg :: (processFiles rest).2)
    | .ok none => processFiles rest
    | .ok (some (cat, n, t)) =>
      (insertDoc cat n t (processFiles rest).1, (processFiles rest).2)

/-- `load_csrd_documents` (app.py / src/report_analyzer.py): if the
`data/csrd/general` directory does not exist the scan is skipped and the
freshly initialised all-empty corpus is returned; otherwise every `*.txt`
file is read and categorised, per-file errors being logged (second
component) without aborting the load. -/
def load_csrd_documents (generalExists : Bool) (files : List FileEntry) :
    CsrdData × List String :=
  if generalExists then processFiles files else (emptyCsrd, [])

/-! ### Regulatory context lookup -/

/-- Python `section in csrd_data` / `csrd_data[section]`: the bucket for a
key that is one of the six category names. -/
def categoryDocs (d : CsrdData) (sec : String) : Option (List (String × String)) :=
  if sec = "environmental" then some d.environmental
  else if sec = "social" then some d.social
  else if sec = "governance" then some d.governance
  else if sec = "cross_cutting" then some d.cross_cutting
  else if sec = "annexes" then some d.annexes
  else if sec = "precisions" then some d.precisions
  else none

/-- `dict.values()` of a bucket: the document contents in insertion order. -/
def bucketValues (l : List (String × String)) : List String := l.map Prod.snd

/-- The fixed separator of both context builders. -/
def contextSep : String := "\n\n---\n\n"

/-- `get_regulatory_context` (app.py): cross-cutting documents only for the
three main sections, then the section's own documents, then all
clarification (`precisions`) documents, joined with the fixed separator;
empty string when `csrd_data` is absent (`None`). -/
def get_regulatory_context (csrd_data : Option CsrdData) (sec : String) : String :=
  match csrd_data with
  | none => ""
  | some d =>
    let docs1 := if sec = "environmental" ∨ sec = "social" ∨ sec = "governance"
      then bucketValues d.cross_cutting else []
    let docs2 := match categoryDocs d sec with
      | some l => bucketValues l
      | none => []
    let docs3 := bucketValues d.precisions
    String.intercalate contextSep (docs1 ++ (docs2 ++ docs3))

/-- The body of `CSRDReportAnalyzer._get_section_context`
(src/report_analyzer.py) once `self.csrd_data` holds a loaded corpus:
cross-cutting documents (unconditionally), then the section's own documents;
note it adds no clarification documents. -/
def getSectionContextCore (d : CsrdData) (sec : String) : String :=
  let docs := bucketValues d.cross_cutting ++
    (match categoryDocs d sec with
     | some l => bucketValues l
     | none => [])
  String.intercalate contextSep docs

/-! ### Prompt builders -/

/-- `json.dumps(company_info, indent=2)` for the three-field company dict. -/
def companyJson (c : CompanyInfo) : String :=
  "\x7b\n  \"name\": \"" ++ c.name ++ "\",\n  \"sector\": \"" ++ c.sector
    ++ "\",\n  \"size\": \"" ++ c.size ++ "\"\n\x7d"

/-- `CSRDReportAnalyzer._create_analysis_prompt` (app.py lines 182-255).
The method is a single f-string whose `FORMAT DE RÉPONSE (JSON)` template is
written with raw single braces, not the doubled `\x7b\x7b` escape an
f-string requires for literal braces.  Under Python ≤ 3.11 the nesting of
replacement fields inside format specifiers exceeds the allowed depth and
the whole module fails to parse (`SyntaxError`, so the construction can
never be reached); under Python 3.12+ (PEP 701) the string parses, the
leading replacement fields (`csrd_regulation[:2000]`, the company fields,
`text[:8000]`) are evaluated left to right, and then the template's nested
field applies the invalid format specifier following `"analysis"` /
`"score"`, raising `ValueError` (invalid format specifier).  Either way no
prompt string is ever produced, so the function is embedded as the raising
computation itself. -/
def createAnalysisPrompt (text : String) (company : CompanyInfo)
    (csrd_regulation : String) : Except PyError String :=
  .error .valueError

/-- The literal JSON response-format tail of the `_analyze_section` prompt
(src/report_analyzer.py); independent of the analysed text and context. -/
def sectionPromptTail : String :=
  "\n\nFORMAT DE RÉPONSE (JSON):\n\x7b\n    \"score\": float,  # Score global (0-100)\n"
  ++ "    \"evaluation\": string,  # Évaluation générale\n"
  ++ "    \"standards_analysis\": \x7b  # Analyse par standard ESRS\n"
  ++ "        \"standard_id\": \x7b\n            \"score\": float,\n            \"conformity\": string,\n"
  ++ "            \"findings\": [string],\n            \"evidence\": [string]\n        \x7d\n    \x7d,\n"
  ++ "    \"compliance\": \x7b\n        \"conforming\": [string],\n        \"non_conforming\": [string],\n"
  ++ "        \"partially_conforming\": [string]\n    \x7d,\n    \"recommendations\": [string]\n\x7d"

/-- The prompt built inside `CSRDReportAnalyzer._analyze_section`
(src/report_analyzer.py): section name, company context as JSON, the first
2000 characters of the regulatory context, the serialised criteria, the
first 8000 characters of the report text, and the fixed response-format
tail.  Pure string construction, no side effect. -/
def sectionPrompt (sec : String) (company : CompanyInfo)
    (regulatory_context : String) (criteria : String) (text : String) : String :=
  "Analyser la section " ++ sec
  ++ " selon les normes ESRS.\n\nCONTEXTE ENTREPRISE:\n" ++ companyJson company
  ++ "\n\nRÉFÉRENTIEL ESRS APPLICABLE:\n" ++ pySlice regulatory_context 2000
  ++ "\n\nCRITÈRES D\x27ÉVALUATION:\n" ++ criteria
  ++ "\n\nTEXTE À ANALYSER:\n" ++ pySlice text 8000
  ++ sectionPromptTail

/-! ### The orchestrator of src/report_analyzer.py

`CSRDReportAnalyzer.__init__` assigns `self.client`, `self.model` and
`self.csrd_criteria`, and nothing in the repository ever assigns
`self.csrd_data` or `self.evaluation_criteria`; reading either attribute
raises `AttributeError`.  The class body defines `analyze_report` twice;
the second definition (text and company only, no emptiness check) shadows
the first, so it is the one modelled here. -/

/-- The attribute state of a `CSRDReportAnalyzer` instance: `none` models a
never-assigned attribute (whose read raises `AttributeError`); for
`csrd_data`, `some none` would model the attribute holding Python `None`. -/
structure AnalyzerState where
  csrd_data : Option (Option CsrdData)
  evaluation_criteria : Option (String → Option String)

/-- The attribute state after `CSRDReportAnalyzer.__init__`
(src/report_analyzer.py): neither `csrd_data` nor `evaluation_criteria` is
assigned. -/
def initAnalyzerState : AnalyzerState := ⟨none, none⟩

/-- `CSRDReportAnalyzer._get_section_context`: raises `AttributeError` when
`self.csrd_data` was never assigned; returns `""` when it holds a falsy
value; otherwise concatenates cross-cutting and section documents. -/
def getSectionContext (st : AnalyzerState) (sec : String) : Except PyError String :=
  match st.csrd_data with
  | none => .error .attributeError
  | some none => .ok ""
  | some (some d) => .ok (getSectionContextCore d sec)

/-- The placeholder result substituted by the `except` handler of
`_analyze_section`: score 0, empty lists, an evaluation naming the failed
section. -/
def placeholderResult (sec : String) : SectionResult :=
  { score := some 0,
    evaluation := "Erreur d\x27analyse de la section " ++ sec,
    compliance := some ⟨[], [], []⟩,
    recommendations := some [] }

/-- `CSRDReportAnalyzer._analyze_section`: fetch the section context and the
criteria (both outside the `try` block, so their exceptions propagate), build
the prompt, then inside `try` call the completion service and parse its JSON
answer; a service or parse failure is caught and replaced by the zeroed
placeholder.  `svc` maps the prompt to either a parsed payload or a failure
(API error or malformed JSON).  The second component lists the prompts
actually sent to the completion service. -/
def analyzeSectionT (st : AnalyzerState) (svc : String → Except Unit SectionResult)
    (text : String) (sec : String) (company : CompanyInfo) :
    Except PyError SectionResult × List String :=
  match getSectionContext st sec with
  | .error e => (.error e, [])
  | .ok regulatory_context =>
    match st.evaluation_criteria with
    | none => (.error .attributeError, [])
    | some crit =>
      match crit sec with
      | none => (.error .keyError, [])
      | some criteria =>
        let prompt := sectionPrompt sec company regulatory_context criteria text
        match svc prompt with
        | .ok r => (.ok r, [prompt])
        | .error _ => (.ok (placeholderResult sec), [prompt])

/-- The outcome of the effective `analyze_report`: either the enriched
consolidated record, or the fallback `_get_demo_analysis()` returned by the
outer `except` handler. -/
inductive AnalyzeOutcome
  | result (e : EnrichedAnalysis)
  | demo

/-- The effective `CSRDReportAnalyzer.analyze_report` (second definition,
src/report_analyzer.py lines 106-139): analyse the three fixed sections in
order, consolidate, enrich; any exception along the way is caught by the
outer handler, which returns the demo analysis.  No emptiness check is
performed on `text`.  The second component lists the prompts sent to the
completion service. -/
def analyzeReport (st : AnalyzerState) (svc : String → Except Unit SectionResult)
    (text : String) (company : CompanyInfo) (now : String) :
    AnalyzeOutcome × List String :=
  match analyzeSectionT st svc text "environmental" company with
  | (.error _, cs) => (.demo, cs)
  | (.ok r1, cs1) =>
    match analyzeSectionT st svc text "social" company with
    | (.error _, cs) => (.demo, cs1 ++ cs)
    | (.ok r2, cs2) =>
      match analyzeSectionT st svc text "governance" company with
      | (.error _, cs) => (.demo, cs1 ++ cs2 ++ cs)
      | (.ok r3, cs3) =>
        let consolidated := consolidateResults
          [("environmental", r1), ("social", r2), ("governance", r3)]
        match enrichResults consolidated company now with
        | .error _ => (.demo, cs1 ++ cs2 ++ cs3)
        | .ok e => (.result e, cs1 ++ cs2 ++ cs3)

/-! ### The orchestrator of app.py -/

/-- One section of the flat four-criteria payload expected by
`_validate_and_enhance_results` (app.py). -/
structure FlatSection where
  score : ℚ
  evaluation : String
  points_forts : List String
  axes_amelioration : List String
  deriving DecidableEq, Repr

/-- The parsed completion payload consumed by app.py's analyzer: the four
`analysis` sections read by `_validate_and_enhance_results`. -/
structure FlatResults where
  gouvernance : FlatSection
  strategie : FlatSection
  gestion_risques : FlatSection
  indicateurs : FlatSection
  deriving DecidableEq, Repr

/-- The `metadata` dict attached by `_validate_and_enhance_results`. -/
structure AppMetadata where
  date_analyse : String
  version_csrd : String
  score_global : ℚ
  deriving DecidableEq, Repr

/-- `CSRDReportAnalyzer._validate_and_enhance_results` (app.py): the global
score is the plain mean of the four section scores; metadata carries the
fixed version string and the timestamp. -/
def validateAndEnhance (r : FlatResults) (now : String) : FlatResults × AppMetadata :=
  let global := (r.gouvernance.score + r.strategie.score
    + r.gestion_risques.score + r.indicateurs.score) / 4
  (r, ⟨now, "2024", global⟩)

/-- Outcome of app.py's `analyze_report`: either validated-and-enhanced
results or the demo analysis from the `except` handler. -/
inductive AppOutcome
  | result (r : FlatResults × AppMetadata)
  | demo

/-- `CSRDReportAnalyzer.analyze_report` (app.py lines 155-180): inside its
`try` block it builds the prompt, calls the completion service once, parses
and enhances; any failure (the `ValueError` raised by prompt construction,
an API error, malformed JSON, missing keys) is caught and the demo analysis
is returned.  No emptiness check is performed on `text`.  Because
`_create_analysis_prompt` always raises before the API call, the service is
never invoked on this path.  The second component counts the
completion-service calls issued. -/
def analyzeReportApp (svc : String → Except Unit FlatResults) (text : String)
    (company : CompanyInfo) (csrd_regulation : String) (now : String) :
    AppOutcome × Nat :=
  match createAnalysisPrompt text company csrd_regulation with
  | .error _ => (.demo, 0)
  | .ok prompt =>
    match svc prompt with
    | .ok r => (.result (validateAndEnhance r now), 1)
    | .error _ => (.demo, 1)

/-! ### Lemmas about the consolidation loop -/

lemma consolidateCore_recommendations (rs : List (String × SectionResult)) :
    (consolidateCore rs).recommendations
      = (rs.map (fun p => p.2.recommendations.getD [])).flatten := by
  induction rs with
  | nil => rfl
  | cons p rest ih =>
    obtain ⟨sec, r⟩ := p
    simp [consolidateCore, ih]

lemma consolidateCore_total (rs : List (String × SectionResult)) :
    (consolidateCore rs).total
      = (rs.map (fun p => p.2.score.getD 0 * weightOf p.1)).sum := by
  induction rs with
  | nil => rfl
  | cons p rest ih =>
    obtain ⟨sec, r⟩ := p
    simp [consolidateCore, ih]

lemma consolidate_total_three (r1 r2 r3 : SectionResult) :
    (consolidateCore [("environmental", r1), ("social", r2), ("governance", r3)]).total
      = r1.score.getD 0 * (2 / 5) + r2.score.getD 0 * (3 / 10)
        + r3.score.getD 0 * (3 / 10) := by
  simp [consolidateCore, weightOf]
  ring

/-! ### Lemmas about the loader loop -/

lemma processFiles_errors_append (a b : List FileEntry) :
    (processFiles (a ++ b)).2 = (processFiles a).2 ++ (processFiles b).2 := by
  induction a with
  | nil => rfl
  | cons e rest ih =>
    simp only [List.cons_append, processFiles]
    cases h : processFile e with
    | error msg => simp [h, ih]
    | ok v =>
      cases v with
      | none => simp [h, ih]
      | some t => simp [h, ih]

lemma processFiles_skip_error (e : FileEntry) (msg : String)
    (h : processFile e = .error msg) (pre post : List FileEntry) :
    (processFiles (pre ++ e :: post)).1 = (processFiles (pre ++ post)).1 := by
  induction pre with
  | nil =>
    simp only [List.nil_append, processFiles, h]
  | cons f rest ih =>
    simp only [List.cons_append, processFiles]
    cases hf : processFile f with
    | error m => simp [hf, ih]
    | ok v =>
      cases v with
      | none => simp [hf, ih]
      | some t => simp [hf, ih]

lemma categorize_esrs_stem : categorize "ESRS" = .error () := rfl

/-! ### Claim theorems -/

/-- C1 (counterexample): the spec's worked example is wrong on the code.
With section scores environmental 80, social 70, governance 75 and the fixed
weights 0.4/0.3/0.3, `_consolidate_results` yields a global score of 75.5,
not the claimed 76.5; moreover the global score is not always equal to the
raw weighted sum, as the rounding of the score 100/3 shows. -/
theorem global_score_spec_example_false :
    (consolidateResults [("environmental", mkScored 80), ("social", mkScored 70),
        ("governance", mkScored 75)]).global_score = 151 / 2
    ∧ ((151 : ℚ) / 2 ≠ 153 / 2)
    ∧ (consolidateResults [("environmental", mkScored (100 / 3)), ("social", mkScored 0),
        ("governance", mkScored 0)]).global_score
      ≠ (100 / 3) * (2 / 5) + 0 * (3 / 10) + 0 * (3 / 10) := by
  refine ⟨?_, by norm_num, ?_⟩
  · have ht : (consolidateCore [("environmental", mkScored 80), ("social", mkScored 70),
        ("governance", mkScored 75)]).total = 151 / 2 := by
      rw [consolidate_total_three]
      simp only [mkScored]
      norm_num
    simp only [consolidateResults, ht]
    exact round2_int _ 7550 (by norm_num)
  · have ht : (consolidateCore [("environmental", mkScored (100 / 3)), ("social", mkScored 0),
        ("governance", mkScored 0)]).total = 40 / 3 := by
      rw [consolidate_total_three]
      simp only [mkScored]
      norm_num
    have hgl : (consolidateResults [("environmental", mkScored (100 / 3)),
        ("social", mkScored 0), ("governance", mkScored 0)]).global_score = 1333 / 100 := by
      simp only [consolidateResults, ht]
      rw [round2_lowc (40 / 3) 1333 ?hf ?hr]
      · norm_num
      case hf =>
        rw [Int.floor_eq_iff]
        constructor <;> norm_num
      case hr => norm_num
    rw [hgl]
    norm_num

/-- C1 (amended): for every section-score mapping covering the three
configured sections with scores in [0,100], the consolidated global score
equals `round(score_env*0.4 + score_soc*0.3 + score_gov*0.3, 2)` and lies
in [0,100]; in particular scores 80/70/75 yield 75.5. -/
theorem global_score_weighted_rounded_in_range (r1 r2 r3 : SectionResult) (e s g : ℚ)
    (h1 : r1.score = some e) (h2 : r2.score = some s) (h3 : r3.score = some g)
    (he : 0 ≤ e ∧ e ≤ 100) (hs : 0 ≤ s ∧ s ≤ 100) (hg : 0 ≤ g ∧ g ≤ 100) :
    (consolidateResults [("environmental", r1), ("social", r2),
        ("governance", r3)]).global_score
      = round2 (e * (2 / 5) + s * (3 / 10) + g * (3 / 10))
    ∧ 0 ≤ (consolidateResults [("environmental", r1), ("social", r2),
        ("governance", r3)]).global_score
    ∧ (consolidateResults [("environmental", r1), ("social", r2),
        ("governance", r3)]).global_score ≤ 100 := by
  have ht : (consolidateCore [("environmental", r1), ("social", r2),
      ("governance", r3)]).total = e * (2 / 5) + s * (3 / 10) + g * (3 / 10) := by
    rw [consolidate_total_three, h1, h2, h3]
    rfl
  have hgl : (consolidateResults [("environmental", r1), ("social", r2),
      ("governance", r3)]).global_score
      = round2 (e * (2 / 5) + s * (3 / 10) + g * (3 / 10)) := by
    simp only [consolidateResults, ht]
  refine ⟨hgl, ?_, ?_⟩
  · rw [hgl]
    exact round2_nonneg _ (by nlinarith [he.1, hs.1, hg.1])
  · rw [hgl]
    exact round2_le_100 _ (by nlinarith [he.2, hs.2, hg.2])

/-- Witness for C1 (amended) at scores 80/70/75. -/
theorem global_score_weighted_rounded_in_range_witness :
    (consolidateResults [("environmental", mkScored 80), ("social", mkScored 70),
        ("governance", mkScored 75)]).global_score
      = round2 (80 * (2 / 5) + 70 * (3 / 10) + 75 * (3 / 10))
    ∧ 0 ≤ (consolidateResults [("environmental", mkScored 80), ("social", mkScored 70),
        ("governance", mkScored 75)]).global_score
    ∧ (consolidateResults [("environmental", mkScored 80), ("social", mkScored 70),
        ("governance", mkScored 75)]).global_score ≤ 100 :=
  global_score_weighted_rounded_in_range (mkScored 80) (mkScored 70) (mkScored 75)
    80 70 75 rfl rfl rfl
    ⟨by norm_num, by norm_num⟩ ⟨by norm_num, by norm_num⟩ ⟨by norm_num, by norm_num⟩

/-- C2: on empty report text neither analyzer variant raises a validation
error; both return the demo analysis instead of failing fast.  The
effective `analyze_report` of src/report_analyzer.py returns the demo
analysis (its uninitialised `csrd_data` attribute fails before any
completion call, and the outer handler swallows the exception), and the
app.py variant also returns the demo analysis with zero completion calls
(its prompt construction raises inside the `try` before the API call) —
in both variants the failure is an unrelated swallowed exception, not the
claimed input validation, and a demo result is returned. -/
theorem empty_text_no_validation_error :
    (∀ (svc : String → Except Unit SectionResult) (company : CompanyInfo) (now : String),
        analyzeReport initAnalyzerState svc "" company now = (.demo, []))
    ∧ (∀ (svcA : String → Except Unit FlatResults) (company : CompanyInfo)
        (reg now : String),
        analyzeReportApp svcA "" company reg now = (.demo, 0)) := by
  constructor
  · intro svc company now
    rfl
  · intro svcA company reg now
    rfl

/-- C3: for every completion-service stub (in particular one returning
malformed JSON for exactly one section) and every input, the effective
`analyze_report` of src/report_analyzer.py returns the demo analysis and
issues zero completion-service calls: the per-section placeholder path is
never reached because reading the never-assigned `csrd_data` attribute
raises before the `try` block. -/
theorem analyze_report_always_demo_no_calls
    (svc : String → Except Unit SectionResult) (text : String)
    (company : CompanyInfo) (now : String) :
    analyzeReport initAnalyzerState svc text company now = (.demo, []) := rfl

/-- C4: consolidating per-section results with scores environmental 80,
social 60, governance 90 and enriching yields a global score of
80*0.4 + 60*0.3 + 90*0.3 = 77 and metadata carrying the fixed version
strings. -/
theorem end_to_end_scores_77_metadata (r1 r2 r3 : SectionResult)
    (company : CompanyInfo) (now : String)
    (h1 : r1.score = some 80) (h2 : r2.score = some 60) (h3 : r3.score = some 90) :
    (enrichResults (consolidateResults
        [("environmental", r1), ("social", r2), ("governance", r3)]) company now).map
      (fun en => (en.base.global_score, en.metadata.esrs_version,
        en.metadata.analyzer_version))
      = .ok (77, "2024", "2.0") := by
  have ht : (consolidateCore [("environmental", r1), ("social", r2),
      ("governance", r3)]).total = 77 := by
    rw [consolidate_total_three, h1, h2, h3]
    norm_num
  have hg : (consolidateResults [("environmental", r1), ("social", r2),
      ("governance", r3)]).global_score = 77 := by
    simp only [consolidateResults, ht]
    exact round2_int _ 7700 (by norm_num)
  have hsum : ∃ s, generateSummary (consolidateResults
      [("environmental", r1), ("social", r2), ("governance", r3)]) = .ok s := by
    simp [generateSummary, consolidateResults, consolidateCore, List.lookup]
  obtain ⟨s, hsok⟩ := hsum
  simp [enrichResults, hsok, hg, Except.map]

/-- Witness for C4 at concrete section results and company data. -/
theorem end_to_end_scores_77_metadata_witness :
    (enrichResults (consolidateResults
        [("environmental", mkScored 80), ("social", mkScored 60),
         ("governance", mkScored 90)]) ⟨"ACME", "Industrie", "ETI"⟩ "2024-01-01").map
      (fun en => (en.base.global_score, en.metadata.esrs_version,
        en.metadata.analyzer_version))
      = .ok (77, "2024", "2.0") :=
  end_to_end_scores_77_metadata (mkScored 80) (mkScored 60) (mkScored 90)
    ⟨"ACME", "Industrie", "ETI"⟩ "2024-01-01" rfl rfl rfl

/-- C5: `get_regulatory_context` returns the empty string for an absent
corpus, and otherwise the fixed-separator join of the cross-cutting
documents (only for the three main sections), the section's own documents,
and all clarification documents, in that order. -/
theorem get_context_concatenation :
    (∀ sec, get_regulatory_context none sec = "")
    ∧ (∀ (d : CsrdData) (sec : String), get_regulatory_context (some d) sec
        = String.intercalate contextSep
            ((if sec = "environmental" ∨ sec = "social" ∨ sec = "governance"
              then bucketValues d.cross_cutting else [])
             ++ ((categoryDocs d sec).elim [] bucketValues)
             ++ bucketValues d.precisions)) := by
  constructor
  · intro sec
    rfl
  · intro d sec
    unfold get_regulatory_context
    dsimp only
    cases h : categoryDocs d sec <;> simp [h, List.append_assoc]

/-- C6: the consolidated recommendations list is the concatenation of the
per-section recommendation lists in section-iteration order, and duplicates
across sections are preserved (two sections each recommending the same
string contribute two occurrences). -/
theorem recommendations_concatenated_with_duplicates :
    (∀ rs, (consolidateResults rs).recommendations
        = (rs.map (fun p => p.2.recommendations.getD [])).flatten)
    ∧ (∀ a b x : String,
        (consolidateResults [(a, ⟨none, "", none, some [x]⟩),
            (b, ⟨none, "", none, some [x]⟩)]).recommendations = [x, x]) := by
  constructor
  · intro rs
    simp only [consolidateResults]
    exact consolidateCore_recommendations rs
  · intro a b x
    simp [consolidateResults, consolidateCore]

/-- C7: when the corpus root directory is absent, `load_csrd_documents`
returns (without raising: it is a total function here) the corpus with all
six categories present and empty, and an empty error log. -/
theorem missing_root_empty_corpus (files : List FileEntry) :
    load_csrd_documents false files = (emptyCsrd, [])
    ∧ emptyCsrd.environmental = [] ∧ emptyCsrd.social = []
    ∧ emptyCsrd.governance = [] ∧ emptyCsrd.cross_cutting = []
    ∧ emptyCsrd.annexes = [] ∧ emptyCsrd.precisions = [] :=
  ⟨rfl, rfl, rfl, rfl, rfl, rfl, rfl⟩

/-- C8: the claim holds for the `_analyze_section` prompt builder
(src/report_analyzer.py), whose f-string correctly doubles its literal
braces: it depends on the regulatory context only through its first 2000
characters and on the report text only through its first 8000 characters,
so content beyond each cap cannot appear in the prompt.  But app.py's
`_create_analysis_prompt` raises on every input (raw-brace f-string) and
never builds a prompt at all, contradicting the claim for that builder. -/
theorem prompt_truncation_caps :
    (∀ (text : String) (company : CompanyInfo) (reg : String),
        createAnalysisPrompt text company reg = .error .valueError)
    ∧ (∀ (sec : String) (company : CompanyInfo) (regctx criteria text : String),
        sectionPrompt sec company regctx criteria text
          = sectionPrompt sec company (pySlice regctx 2000) criteria
              (pySlice text 8000)) := by
  constructor
  · intro text company reg
    rfl
  · intro sec company regctx criteria text
    simp [sectionPrompt, pySlice, List.take_take]

/-- C9: a readable corpus file whose stem is exactly `"ESRS"` makes the
cross-cutting test index `name[4]` out of bounds; the `IndexError` is caught
by the per-file handler, so the file is logged as a per-file read error, is
put in no bucket, and the remaining files still load: the resulting corpus
is the one obtained without that file. -/
theorem esrs_stem_indexerror_skipped (pre post : List FileEntry) (content : String) :
    categorize "ESRS" = .error ()
    ∧ (processFiles (pre ++ ⟨"ESRS", content, false⟩ :: post)).1
        = (processFiles (pre ++ post)).1
    ∧ (processFiles (pre ++ ⟨"ESRS", content, false⟩ :: post)).2
        = (processFiles pre).2
          ++ "Erreur lors de la lecture de ESRS" :: (processFiles post).2 := by
  have hp : processFile ⟨"ESRS", content, false⟩
      = .error "Erreur lors de la lecture de ESRS" := rfl
  refine ⟨categorize_esrs_stem, processFiles_skip_error _ _ hp pre post, ?_⟩
  rw [processFiles_errors_append pre (⟨"ESRS", content, false⟩ :: post)]
  simp only [processFiles, hp]

/-- C10: the consolidated global score is always the weighted sum rounded to
two decimal places with Python's ties-to-even rule, not the raw sum: for
scores 95/60/66.75 the raw sum 76.025 is rounded (tie, to even) to 76.02. -/
theorem global_score_is_rounded_weighted_sum :
    (∀ rs, (consolidateResults rs).global_score
        = round2 ((rs.map (fun p => p.2.score.getD 0 * weightOf p.1)).sum))
    ∧ (consolidateResults [("environmental", mkScored 95), ("social", mkScored 60),
        ("governance", mkScored (267 / 4))]).global_score = 7602 / 100
    ∧ ((7602 : ℚ) / 100 ≠ 95 * (2 / 5) + 60 * (3 / 10) + (267 / 4) * (3 / 10)) := by
  refine ⟨?_, ?_, by norm_num⟩
  · intro rs
    simp only [consolidateResults, consolidateCore_total]
  · have ht : (consolidateCore [("environmental", mkScored 95), ("social", mkScored 60),
        ("governance", mkScored (267 / 4))]).total = 3041 / 40 := by
      rw [consolidate_total_three]
      simp only [mkScored]
      norm_num
    simp only [consolidateResults, ht]
    rw [round2_tie_even (3041 / 40) 7602 (by norm_num) (by decide)]
    norm_num

end IsItBullshit
